import Mathlib

/-!
# Verification of `fibonaccier.py`

A shallow embedding of the single-file Python program `fibonaccier.py`,
which reads a positive integer `n`, runs two concurrent randomly-delayed
recursive Fibonacci computations, and reports which task finished first.

Modelling choices:
* Python exceptions become an explicit error type `PyError`; fallible
  functions return `Except PyError _`.
* The random delays drawn by `random()` become an explicit stream
  `d : Nat → ℚ` of delay values, consumed left to right in the order the
  Python coroutine awaits them.
* `time_ns()` timestamps become explicit integer parameters.
* The unbounded recursion of `_fib` on arbitrary Python integers is
  modelled twice: `fibD` instruments the in-contract domain `n : Nat`
  with the delay trace, and `fibZ` is a fuel-indexed model over `Int`
  used to settle termination and divergence.
-/

/-- The kinds of Python exceptions the program can raise.
`usageError` embeds the script-specific `UsageError`; the others are the
built-in exceptions the interpreter raises on the relevant paths. -/
inductive PyError where
  | usageError (msg : String)
  | valueError (msg : String)
  | unboundLocalError (msg : String)
  | runtimeError (msg : String)
deriving DecidableEq, Repr

/-- Helper for Python's built-in `int(str)`: a non-empty all-digit run of
characters read as a decimal natural number. -/
def parseDigits (cs : List Char) : Option Nat :=
  if cs ≠ [] ∧ cs.all (fun c => c.isDigit) then
    some (cs.foldl (fun a c => 10 * a + (c.toNat - 48)) 0)
  else none

/-- Leading and trailing whitespace removal, as Python's `int(str)`
performs before reading the number. -/
def pyStrip (cs : List Char) : List Char :=
  ((cs.dropWhile (fun c => c.isWhitespace)).reverse.dropWhile (fun c => c.isWhitespace)).reverse

/-- Embedding of Python's built-in `int(str)` conversion as used by
`resolve_input`: optional surrounding whitespace, an optional sign,
then decimal digits; anything else fails (Python raises `ValueError`,
modelled here as `none`). -/
def parseInt (s : String) : Option Int :=
  match pyStrip s.toList with
  | '-' :: rest => (parseDigits rest).map (fun m => -(m : Int))
  | '+' :: rest => (parseDigits rest).map (fun m => (m : Int))
  | cs => (parseDigits cs).map (fun m => (m : Int))

/-- Embedding of `resolve_input(*args)` (src/fibonaccier.py lines 178-201).
`args` is the list of positional command-line arguments and `stdin` the
line that `input()` would return.

The Python body assigns `n` only in the `len(args) == 0` and
`len(args) == 1` branches; with two or more arguments neither branch
runs, so the subsequent `if n > 0` raises `UnboundLocalError` (the
`raise UsageError` line is never reached on that path). Parse failures
propagate the `ValueError` raised by `int()`. -/
def resolve_input (args : List String) (stdin : String) : Except PyError Int :=
  match args with
  | [] =>
    match parseInt stdin with
    | none => .error (.valueError ("invalid literal for int() with base 10: " ++ stdin))
    | some n =>
      if n > 0 then .ok n
      else .error (.usageError ("bad command line arguments: " ++ String.intercalate " " args))
  | [a] =>
    match parseInt a with
    | none => .error (.valueError ("invalid literal for int() with base 10: " ++ a))
    | some n =>
      if n > 0 then .ok n
      else .error (.usageError ("bad command line arguments: " ++ String.intercalate " " args))
  | _ => .error (.unboundLocalError "local variable n referenced before assignment")

/-- The result of one invocation of the instrumented `_fib`: the returned
value, the list of delay values awaited (in the order awaited), and the
index of the next unconsumed element of the delay stream. -/
structure FibRun where
  value : Nat
  trace : List ℚ
  next : Nat
deriving DecidableEq, Repr

/-- Embedding of the coroutine `_fib(n)` (src/fibonaccier.py lines 132-156)
on its contract domain `n : Nat`, instrumented with the delay stream `d`:
every invocation first awaits `sleep(random())` — consuming the next
stream element — then checks the base cases `n == 0`, `n == 1`, and
otherwise returns `_fib(n-1) + _fib(n-2)` (left call awaited first). -/
def fibD (d : Nat → ℚ) : Nat → Nat → FibRun
  | 0, i => ⟨0, [d i], i + 1⟩
  | 1, i => ⟨1, [d i], i + 1⟩
  | n + 2, i =>
    let r1 := fibD d (n + 1) (i + 1)
    let r2 := fibD d n r1.next
    ⟨r1.value + r2.value, d i :: (r1.trace ++ r2.trace), r2.next⟩

/-- The number of calls in the naive recursion tree of `_fib` at `n`:
one call for each base case, and one plus the two subtree counts
otherwise. -/
def callCount : Nat → Nat
  | 0 => 1
  | 1 => 1
  | n + 2 => 1 + callCount (n + 1) + callCount n

/-- Fuel-indexed embedding of `_fib` over all Python integers
(src/fibonaccier.py lines 150-156), delays erased: `none` means the
computation did not finish within `fuel` nested calls. Used to settle
termination on `n ≥ 0` and divergence on `n < 0`. -/
def fibZ : Nat → Int → Option Int
  | 0, _ => none
  | fuel + 1, n =>
    if n = 0 then some 0
    else if n = 1 then some 1
    else
      match fibZ fuel (n - 1), fibZ fuel (n - 2) with
      | some a, some b => some (a + b)
      | _, _ => none

/-- The report line built by `resolve_output`'s two f-strings, with
`label` one of `"first"` or `"second"`. -/
def reportLine (n v : Int) (label : String) : String :=
  "fib(" ++ toString n ++ ") -> " ++ toString v ++ " (" ++ label ++ " task finished first)"

/-- Embedding of `resolve_output(n, results)` (src/fibonaccier.py lines
204-225). `results` holds the two `(value, timestamp)` pairs
`results[0]` and `results[1]` produced by `gather`. A value mismatch
raises `RuntimeError`; otherwise the first task is reported first
exactly when its timestamp is strictly smaller, ties going to the
second task. -/
def resolve_output (n : Int) (results : (Int × Int) × (Int × Int)) : Except PyError String :=
  let (f0, t0) := results.1
  let (f1, t1) := results.2
  if f0 ≠ f1 then
    .error (.runtimeError ("bad results: " ++ toString f0 ++ " is not " ++ toString f1))
  else if t0 < t1 then .ok (reportLine n f0 "first")
  else .ok (reportLine n f0 "second")

/-- Outcome of one run of `main`: a success line printed to stdout, the
module help text printed to stderr after catching `UsageError`, or an
exception re-raised by the `except BaseException` arm (abnormal
termination). -/
inductive MainOutcome where
  | success (line : String)
  | helpPrinted
  | fatal (e : PyError)
deriving DecidableEq, Repr

/-- Embedding of the wrapper `fib(n)` (src/fibonaccier.py lines 159-175)
as scheduled inside `gather`: runs `_fib` on delay stream `d`, then
captures the completion timestamp `ts` (a `time_ns()` reading supplied
by the environment). Returns the `(value, timestamp)` pair. -/
def fibTimed (d : Nat → ℚ) (n : Nat) (ts : Int) : Int × Int :=
  ((fibD d n 0).value, ts)

/-- The `try` block of `main` (src/fibonaccier.py lines 231-240) in the
exception monad: resolve the input, run the two concurrent `fib(n)`
calls (their delay streams and completion timestamps supplied by the
environment), and resolve the output line. -/
def mainBody (args : List String) (stdin : String)
    (d0 d1 : Nat → ℚ) (ts0 ts1 : Int) : Except PyError String := do
  let n ← resolve_input args stdin
  let results := (fibTimed d0 n.toNat ts0, fibTimed d1 n.toNat ts1)
  resolve_output n results

/-- The `except` clauses of `main` (src/fibonaccier.py lines 242-245):
`UsageError` is caught and the help text printed to stderr; every other
exception is re-raised unchanged. -/
def handleExc (r : Except PyError String) : MainOutcome :=
  match r with
  | .ok line => .success line
  | .error (.usageError _) => .helpPrinted
  | .error e => .fatal e

namespace Fibonaccier

/-- Embedding of `main(_, *args)` (src/fibonaccier.py lines 230-245):
the `try` block guarded by the `except` clauses. -/
def main (args : List String) (stdin : String)
    (d0 d1 : Nat → ℚ) (ts0 ts1 : Int) : MainOutcome :=
  handleExc (mainBody args stdin d0 d1 ts0 ts1)

end Fibonaccier

/-- Whether a `resolve_input` outcome is the script-specific `UsageError`
(the only exception `main` catches). -/
def isUsageError : Except PyError Int → Bool
  | .error (.usageError _) => true
  | _ => false

/-! ## Helper lemmas -/

theorem fibD_value (d : Nat → ℚ) : ∀ n i, (fibD d n i).value = Nat.fib n := by
  intro n
  induction n using Nat.strong_induction_on with
  | _ n ih =>
    match n with
    | 0 => intro i; simp [fibD]
    | 1 => intro i; simp [fibD]
    | n + 2 =>
      intro i
      simp only [fibD]
      rw [Nat.fib_add_two, ih (n + 1) (by omega), ih n (by omega)]
      omega

theorem fibD_next (d : Nat → ℚ) : ∀ n i, (fibD d n i).next = i + callCount n := by
  intro n
  induction n using Nat.strong_induction_on with
  | _ n ih =>
    match n with
    | 0 => intro i; simp [fibD, callCount]
    | 1 => intro i; simp [fibD, callCount]
    | n + 2 =>
      intro i
      simp only [fibD, callCount]
      rw [ih (n + 1) (by omega), ih n (by omega)]
      omega

theorem fibD_trace_length (d : Nat → ℚ) :
    ∀ n i, (fibD d n i).trace.length = callCount n := by
  intro n
  induction n using Nat.strong_induction_on with
  | _ n ih =>
    match n with
    | 0 => intro i; simp [fibD, callCount]
    | 1 => intro i; simp [fibD, callCount]
    | n + 2 =>
      intro i
      simp only [fibD, callCount, List.length_cons, List.length_append]
      rw [ih (n + 1) (by omega), ih n (by omega)]
      omega

theorem fibD_trace_head (d : Nat → ℚ) :
    ∀ n i, (fibD d n i).trace.head? = some (d i) := by
  intro n i
  match n with
  | 0 => simp [fibD]
  | 1 => simp [fibD]
  | n + 2 => simp [fibD]

theorem fibD_trace_mem (d : Nat → ℚ) :
    ∀ n i, ∀ x ∈ (fibD d n i).trace, ∃ k, x = d k := by
  intro n
  induction n using Nat.strong_induction_on with
  | _ n ih =>
    match n with
    | 0 =>
      intro i x hx
      simp [fibD] at hx
      exact ⟨i, hx⟩
    | 1 =>
      intro i x hx
      simp [fibD] at hx
      exact ⟨i, hx⟩
    | n + 2 =>
      intro i x hx
      simp only [fibD, List.mem_cons, List.mem_append] at hx
      rcases hx with h | h | h
      · exact ⟨i, h⟩
      · exact ih (n + 1) (by omega) (i + 1) x h
      · exact ih n (by omega) _ x h

theorem resolve_input_pos (args : List String) (stdin : String) (n : Int)
    (h : resolve_input args stdin = .ok n) : 0 < n := by
  match args with
  | [] =>
    simp only [resolve_input] at h
    rcases hp : parseInt stdin with _ | m <;> rw [hp] at h
    · exact absurd h (by simp)
    · by_cases hm : m > 0 <;> simp [hm] at h
      omega
  | [a] =>
    simp only [resolve_input] at h
    rcases hp : parseInt a with _ | m <;> rw [hp] at h
    · exact absurd h (by simp)
    · by_cases hm : m > 0 <;> simp [hm] at h
      omega
  | _ :: _ :: _ =>
    exact absurd h (by simp [resolve_input])

theorem fibZ_isSome : ∀ (fuel : Nat) (n : Int),
    0 ≤ n → n < (fuel : Int) → (fibZ fuel n).isSome = true := by
  intro fuel
  induction fuel with
  | zero => intro n h0 h1; omega
  | succ fuel ih =>
    intro n h0 h1
    by_cases hn0 : n = 0
    · simp [fibZ, hn0]
    by_cases hn1 : n = 1
    · simp [fibZ, hn0, hn1]
    have ha := ih (n - 1) (by omega) (by omega)
    have hb := ih (n - 2) (by omega) (by omega)
    obtain ⟨a, ha'⟩ := Option.isSome_iff_exists.mp ha
    obtain ⟨b, hb'⟩ := Option.isSome_iff_exists.mp hb
    simp [fibZ, hn0, hn1, ha', hb']

theorem fibZ_neg : ∀ (fuel : Nat) (n : Int), n < 0 → fibZ fuel n = none := by
  intro fuel
  induction fuel with
  | zero => intro n _; rfl
  | succ fuel ih =>
    intro n hn
    have h1 := ih (n - 1) (by omega)
    simp only [fibZ, h1]
    rw [if_neg (by omega : ¬ n = 0), if_neg (by omega : ¬ n = 1)]

/-! ## Claims -/

/-- Claim C1 (code bug): the spec says two or more positional arguments
raise `UsageError`, caught by `main`, which prints the help text. The
code instead leaves the local `n` unassigned on that path, so the
`if n > 0` check raises `UnboundLocalError`, which `main` re-raises:
no help text is printed and the process terminates abnormally. This
theorem evaluates the code at the failing input `1 2 3`. -/
theorem claim1_two_args_bug :
    resolve_input ["1", "2", "3"] "" =
      .error (.unboundLocalError "local variable n referenced before assignment") ∧
    isUsageError (resolve_input ["1", "2", "3"] "") = false ∧
    Fibonaccier.main ["1", "2", "3"] "" (fun _ => 0) (fun _ => 0) 0 0 =
      .fatal (.unboundLocalError "local variable n referenced before assignment") :=
  ⟨rfl, rfl, rfl⟩

/-- Claim C2 counterexample: the input `"abc"` does not parse as an
integer, yet `resolve_input` does not raise `UsageError` — it raises the
`ValueError` from `int()`, which `main` re-raises instead of printing
the help text. -/
theorem claim2_counterexample :
    parseInt "abc" = none ∧
    isUsageError (resolve_input ["abc"] "") = false ∧
    Fibonaccier.main ["abc"] "" (fun _ => 0) (fun _ => 0) 0 0 =
      .fatal (.valueError "invalid literal for int() with base 10: abc") :=
  ⟨rfl, rfl, rfl⟩

/-- Claim C2 (amended): for every input string that does not parse as an
integer — whether supplied as the single command-line argument or as the
line read from standard input — `resolve_input` raises the `ValueError`
from `int()` (not a `UsageError`), and `main` re-raises it. -/
theorem claim2_nonInteger_valueError (s t : String) (d0 d1 : Nat → ℚ)
    (ts0 ts1 : Int) (h : parseInt s = none) :
    resolve_input [s] t =
      .error (.valueError ("invalid literal for int() with base 10: " ++ s)) ∧
    resolve_input [] s =
      .error (.valueError ("invalid literal for int() with base 10: " ++ s)) ∧
    Fibonaccier.main [s] t d0 d1 ts0 ts1 =
      .fatal (.valueError ("invalid literal for int() with base 10: " ++ s)) := by
  have hri : resolve_input [s] t =
      .error (.valueError ("invalid literal for int() with base 10: " ++ s)) := by
    simp [resolve_input, h]
  refine ⟨hri, by simp [resolve_input, h], ?_⟩
  unfold Fibonaccier.main mainBody
  rw [hri]
  rfl

/-- Witness for C2's amended theorem at the concrete input `"abc"`. -/
theorem claim2_witness :
    resolve_input ["abc"] "x" =
      .error (.valueError "invalid literal for int() with base 10: abc") :=
  (claim2_nonInteger_valueError "abc" "x" (fun _ => 0) (fun _ => 0) 0 0 rfl).1

/-- Claim C3: for every `n ≥ 0` and any draw of the random delays, the
value returned by `_fib(n)` is the mathematical Fibonacci number
(`Nat.fib` satisfies `fib 0 = 0`, `fib 1 = 1`, and the two-step
recurrence); in particular it is `0, 1, 1, 8` at `n = 0, 1, 2, 6`. -/
theorem claim3_fib_correct (d : Nat → ℚ) (n i : Nat) :
    (fibD d n i).value = Nat.fib n :=
  fibD_value d n i

/-- Claim C4: on a result pair with equal values, `resolve_output`
reports the first task exactly when its timestamp is strictly smaller,
and in every other case — including exact timestamp equality — reports
the second task; the two report lines are distinct strings. -/
theorem claim4_tiebreak (n v t0 t1 : Int) :
    (t0 < t1 → resolve_output n ((v, t0), (v, t1)) = .ok (reportLine n v "first")) ∧
    (¬t0 < t1 → resolve_output n ((v, t0), (v, t1)) = .ok (reportLine n v "second")) ∧
    reportLine n v "first" ≠ reportLine n v "second" := by
  refine ⟨fun h => by simp [resolve_output, h], fun h => by simp [resolve_output, h],
    fun h => ?_⟩
  have hL := congrArg String.length h
  have h5 : ("first" : String).length = 5 := rfl
  have h6 : ("second" : String).length = 6 := rfl
  simp only [reportLine, String.length_append, h5, h6] at hL
  omega

/-- Witness for C4 at an exact timestamp tie (`t0 = t1 = 5`): the
second task is reported. -/
theorem claim4_witness :
    resolve_output 1 ((1, 5), (1, 5)) = .ok (reportLine 1 1 "second") :=
  (claim4_tiebreak 1 1 5 5).2.1 (by omega)

/-- Claim C5: a result pair whose values differ makes `resolve_output`
raise `RuntimeError` — a constructor distinct from `usageError` — and
the `except` clauses of `main` re-raise it (`fatal`), so the process
terminates abnormally rather than silently succeeding. -/
theorem claim5_mismatch_fatal (n f0 t0 f1 t1 : Int) (h : f0 ≠ f1) :
    resolve_output n ((f0, t0), (f1, t1)) =
      .error (.runtimeError ("bad results: " ++ toString f0 ++ " is not " ++ toString f1)) ∧
    (∀ m u : String, PyError.runtimeError m ≠ PyError.usageError u) ∧
    handleExc (resolve_output n ((f0, t0), (f1, t1))) =
      .fatal (.runtimeError ("bad results: " ++ toString f0 ++ " is not " ++ toString f1)) := by
  refine ⟨by simp [resolve_output, h], fun m u hmu => PyError.noConfusion hmu, ?_⟩
  simp [resolve_output, h, handleExc]

/-- Witness for C5 at the concrete mismatched pair `(1, 0)`, `(2, 0)`. -/
theorem claim5_witness :
    handleExc (resolve_output 3 ((1, 0), (2, 0))) =
      .fatal (.runtimeError ("bad results: " ++ toString (1 : Int) ++ " is not " ++ toString (2 : Int))) :=
  (claim5_mismatch_fatal 3 1 0 2 0 (by decide)).2.2

/-- Claim C6: whenever the supplied string parses to an integer `n`
(one-argument and zero-argument/stdin forms alike), `resolve_input`
returns `n` exactly when `n > 0` and raises `UsageError` otherwise; in
particular `"3"` gives `3`, `"0"` and `"-5"` give `UsageError`, and
stdin `"7"` with no arguments gives `7`. -/
theorem claim6_input_validation :
    (∀ (s t : String) (n : Int), parseInt s = some n →
      (0 < n → resolve_input [s] t = .ok n) ∧
      (¬0 < n → ∃ m, resolve_input [s] t = .error (.usageError m))) ∧
    (∀ (s : String) (n : Int), parseInt s = some n →
      (0 < n → resolve_input [] s = .ok n) ∧
      (¬0 < n → ∃ m, resolve_input [] s = .error (.usageError m))) ∧
    resolve_input ["3"] "" = .ok 3 ∧
    isUsageError (resolve_input ["0"] "") = true ∧
    isUsageError (resolve_input ["-5"] "") = true ∧
    resolve_input [] "7" = .ok 7 := by
  refine ⟨fun s t n hp => ⟨fun hpos => by simp [resolve_input, hp, hpos],
      fun hneg => ⟨"bad command line arguments: " ++ String.intercalate " " [s],
        by simp [resolve_input, hp, hneg]⟩⟩,
    fun s n hp => ⟨fun hpos => by simp [resolve_input, hp, hpos],
      fun hneg => ⟨"bad command line arguments: " ++ String.intercalate " " ([] : List String),
        by simp [resolve_input, hp, hneg]⟩⟩, rfl, rfl, rfl, rfl⟩

/-- Witness for C6's general clauses at the parsed inputs `"5"` and
`"-2"`. -/
theorem claim6_witness :
    resolve_input ["5"] "" = .ok 5 ∧
    (∃ m, resolve_input ["-2"] "" = .error (.usageError m)) :=
  ⟨(claim6_input_validation.1 "5" "" 5 rfl).1 (by omega),
   (claim6_input_validation.1 "-2" "" (-2) rfl).2 (by omega)⟩

/-- Claim C7: whenever `main` succeeds, the line printed to stdout is
exactly `fib(<n>) -> <value>` followed by one of the two first-finisher
labels, where `<value>` is the mathematical Fibonacci number of the
resolved input `n` — whatever delays and timestamps the run produced. -/
theorem claim7_output_shape (args : List String) (t : String) (d0 d1 : Nat → ℚ)
    (ts0 ts1 : Int) (line : String)
    (h : Fibonaccier.main args t d0 d1 ts0 ts1 = .success line) :
    ∃ n : Int, resolve_input args t = .ok n ∧ 0 < n ∧
      (line = reportLine n (Nat.fib n.toNat : Int) "first" ∨
       line = reportLine n (Nat.fib n.toNat : Int) "second") := by
  unfold Fibonaccier.main at h
  cases hri : resolve_input args t with
  | error e =>
    rw [show mainBody args t d0 d1 ts0 ts1 = .error e by
      unfold mainBody; rw [hri]; rfl] at h
    cases e <;> simp [handleExc] at h
  | ok n =>
    refine ⟨n, rfl, resolve_input_pos args t n hri, ?_⟩
    have hv0 : fibTimed d0 n.toNat ts0 = ((Nat.fib n.toNat : Int), ts0) := by
      simp [fibTimed, fibD_value]
    have hv1 : fibTimed d1 n.toNat ts1 = ((Nat.fib n.toNat : Int), ts1) := by
      simp [fibTimed, fibD_value]
    have hm : mainBody args t d0 d1 ts0 ts1 =
        resolve_output n (((Nat.fib n.toNat : Int), ts0), ((Nat.fib n.toNat : Int), ts1)) := by
      unfold mainBody
      rw [hri, ← hv0, ← hv1]
      rfl
    rw [hm] at h
    by_cases hts : ts0 < ts1
    · rw [show resolve_output n (((Nat.fib n.toNat : Int), ts0), ((Nat.fib n.toNat : Int), ts1)) =
          .ok (reportLine n (Nat.fib n.toNat : Int) "first") by simp [resolve_output, hts]] at h
      exact Or.inl (by simpa [handleExc] using h.symm)
    · rw [show resolve_output n (((Nat.fib n.toNat : Int), ts0), ((Nat.fib n.toNat : Int), ts1)) =
          .ok (reportLine n (Nat.fib n.toNat : Int) "second") by simp [resolve_output, hts]] at h
      exact Or.inr (by simpa [handleExc] using h.symm)

/-- Witness for C7 at the end-to-end run with argument `6`: the value
shown is exactly `8`. -/
theorem claim7_witness :
    ∃ n : Int, resolve_input ["6"] "" = .ok n ∧ 0 < n ∧
      ("fib(6) -> 8 (first task finished first)" = reportLine n (Nat.fib n.toNat : Int) "first" ∨
       "fib(6) -> 8 (first task finished first)" = reportLine n (Nat.fib n.toNat : Int) "second") :=
  claim7_output_shape ["6"] "" (fun _ => 0) (fun _ => 0) 0 1
    "fib(6) -> 8 (first task finished first)" rfl

/-- Claim C8: the value of `_fib(n)` is independent of the random delay
draws — two runs with arbitrary, possibly different delay streams (and
stream positions) return the same number. -/
theorem claim8_delay_independent (d0 d1 : Nat → ℚ) (n i j : Nat) :
    (fibD d0 n i).value = (fibD d1 n j).value := by
  rw [fibD_value, fibD_value]

/-- Claim C9: every invocation of `_fib` awaits exactly one delay before
any other work — the delay trace of `_fib(n)` starts with the delay
drawn at the invocation itself, its length is the size of the naive
recursion tree (`1` for the base cases, `1` plus the two subtree counts
otherwise), the delay stream advances by exactly that count, and if
every stream draw lies in `[0, 1)` (as `random()` guarantees) then so
does every awaited delay. -/
theorem claim9_delay_accounting (d : Nat → ℚ) (n i : Nat) :
    (fibD d n i).trace.head? = some (d i) ∧
    (fibD d n i).trace.length = callCount n ∧
    (fibD d n i).next = i + callCount n ∧
    ((∀ k, 0 ≤ d k ∧ d k < 1) → ∀ x ∈ (fibD d n i).trace, 0 ≤ x ∧ x < 1) :=
  ⟨fibD_trace_head d n i, fibD_trace_length d n i, fibD_next d n i,
    fun hb x hx => by
      obtain ⟨k, rfl⟩ := fibD_trace_mem d n i x hx
      exact hb k⟩

/-- Witness for C9 at `n = 2` with the constant zero delay stream. -/
theorem claim9_witness :
    (fibD (fun _ => (0 : ℚ)) 2 0).trace.head? = some 0 ∧
    (fibD (fun _ => (0 : ℚ)) 2 0).trace.length = callCount 2 ∧
    ((0 : ℚ) ≤ 0 ∧ (0 : ℚ) < 1) := by
  have h := claim9_delay_accounting (fun _ => (0 : ℚ)) 2 0
  exact ⟨h.1, h.2.1, h.2.2.2 (fun k => by norm_num) (0 : ℚ) (by simp [fibD])⟩

/-- Claim C10: in the fuel-indexed model, `_fib(n)` terminates for every
integer `n ≥ 0` (some finite recursion depth suffices), whereas for
every `n < 0` no amount of fuel produces a result — the recursion never
reaches a base case. -/
theorem claim10_termination :
    (∀ n : Int, 0 ≤ n → ∃ fuel : Nat, (fibZ fuel n).isSome = true) ∧
    (∀ n : Int, n < 0 → ∀ fuel : Nat, fibZ fuel n = none) :=
  ⟨fun n h0 => ⟨n.toNat + 1, fibZ_isSome (n.toNat + 1) n h0 (by omega)⟩,
   fun n hn fuel => fibZ_neg fuel n hn⟩

/-- Witness for C10 at `n = 2` (terminates) and `n = -3` (diverges at
fuel `4`). -/
theorem claim10_witness :
    (∃ fuel : Nat, (fibZ fuel 2).isSome = true) ∧ fibZ 4 (-3) = none :=
  ⟨claim10_termination.1 2 (by omega), claim10_termination.2 (-3) (by omega) 4⟩
